import Mathlib

set_option autoImplicit false

namespace WillUMailMe

/-! Shallow embedding of the API-key issuance and verification scheme of the
WillUMailMe repository: the issuer script healthcheck.js and the verifier
middleware authenticateApiKey of server.js. Bytes are modelled as Nat values
below 256, Node Buffers and Uint8Arrays as List Nat, JavaScript strings as
Lean String. Configuration values come from process.env and are therefore
always strings; the embedding restricts attention to configurations whose
numeric fields are canonical decimal digit strings, the only configurations
under which the service is meaningfully deployable, so that parseInt and
ToNumber agree and are modelled by one conversion jsToNat. -/

/-- Decimal digit value of a character, none when the character is not a
decimal digit. -/
def decDigit (c : Char) : Option Nat :=
  if 48 ≤ c.toNat ∧ c.toNat ≤ 57 then some (c.toNat - 48) else none

/-- Accumulating decimal parser over a character list; none on the first
non-digit character. -/
def digitsValAux : List Char → Nat → Option Nat
  | [], acc => some acc
  | c :: cs, acc =>
    match decDigit c with
    | some d => digitsValAux cs (acc * 10 + d)
    | none => none

/-- Numeric value JavaScript obtains from a configuration string, via
parseInt in healthcheck.js and via the WebIDL ToNumber conversions applied by
Buffer slicing and the WebCrypto API in server.js. On canonical nonnegative
decimal strings, the only configurations considered here, all of these agree
with this conversion; any other string is sent to 0. -/
def jsToNat (s : String) : Nat := (digitsValAux s.data 0).getD 0

/-- Byte list of a JavaScript string as produced by TextEncoder().encode,
restricted to the ASCII range where UTF-8 is the identity on code points. -/
def strBytes (s : String) : List Nat := s.data.map Char.toNat

/-- String obtained from a byte list by TextDecoder().decode, restricted to
the ASCII range. -/
def bytesToString (bs : List Nat) : String := String.mk (bs.map Char.ofNat)

/-- Model of Buffer.prototype.slice (equivalently Uint8Array subarray plus
copy, as used on server.js lines 76 to 78) for nonnegative, possibly
out-of-range indices: the selected range is clamped to the buffer. -/
def bufSlice (b : List Nat) (s e : Nat) : List Nat := (b.take e).drop s

/-- Flip one bit of byte i of a byte list: XOR the byte with 2 ^ (j % 8).
Positions past the end leave the list unchanged. -/
def flipBit (bs : List Nat) (i j : Nat) : List Nat :=
  bs.set i ((bs.getD i 0) ^^^ (1 <<< (j % 8)))

/-- Standard base64 alphabet in order of 6-bit values. -/
def b64Chars : List Char :=
  "ABCDEFGHIJKLMNOPQRSTUVWXYZabcdefghijklmnopqrstuvwxyz0123456789+/".data

/-- Character of a 6-bit value. -/
def b64CharOf (n : Nat) : Char := b64Chars.getD n 'A'

/-- 6-bit value of an alphabet character, none for every character outside
the alphabet (Node Buffer base64 decoding skips such characters, including
the padding character). -/
def b64Val (c : Char) : Option Nat := b64Chars.indexOf? c

/-- Base64 encoding of a byte list, three bytes to four characters with
padding, as produced by Buffer.prototype.toString with base64. -/
def encodeChunks : List Nat → List Char
  | b1 :: b2 :: b3 :: rest =>
      b64CharOf (b1 / 4) :: b64CharOf ((b1 % 4) * 16 + b2 / 16) ::
      b64CharOf ((b2 % 16) * 4 + b3 / 64) :: b64CharOf (b3 % 64) :: encodeChunks rest
  | [b1, b2] => [b64CharOf (b1 / 4), b64CharOf ((b1 % 4) * 16 + b2 / 16),
      b64CharOf ((b2 % 16) * 4), '=']
  | [b1] => [b64CharOf (b1 / 4), b64CharOf ((b1 % 4) * 16), '=', '=']
  | [] => []

/-- Base64 encoding to a string, as in healthcheck.js line 67. -/
def b64encode (bs : List Nat) : String := String.mk (encodeChunks bs)

/-- Bytes of a list of 6-bit values, four values to three bytes, a trailing
group of two or three values yielding one or two bytes and a lone trailing
value yielding nothing, following Node Buffer base64 decoding. -/
def decodeVals : List Nat → List Nat
  | a :: b :: c :: d :: rest =>
      (a * 4 + b / 16) :: ((b % 16) * 16 + c / 4) :: ((c % 4) * 64 + d) :: decodeVals rest
  | [a, b] => [a * 4 + b / 16]
  | [a, b, c] => [a * 4 + b / 16, (b % 16) * 16 + c / 4]
  | _ => []

/-- Model of Buffer.from(s, base64) as on server.js line 66: characters
outside the alphabet are skipped, then 6-bit groups are packed into bytes. -/
def b64decode (s : String) : List Nat := decodeVals (s.data.filterMap b64Val)

/-- Modelled from the spec: stand-in keystream byte of the WebCrypto AES-GCM
cipher body (spec section 4.2). The AES block cipher is a platform primitive
absent from src/; the scheme relies only on the body being a deterministic,
length-preserving function of key, nonce and plaintext, which this stand-in
provides. -/
def padByte (key iv : List Nat) (i : Nat) : Nat :=
  (key.sum * 13 + iv.sum * 11 + i * 3 + 5) % 256

/-- Modelled from the spec: encrypted body of an AES-GCM seal, one output
byte per plaintext byte (spec section 4.2). -/
def encBytes (key iv pt : List Nat) : List Nat :=
  pt.mapIdx fun i b => (b + padByte key iv i) % 256

/-- Modelled from the spec: inverse of encBytes, the decrypted body of an
AES-GCM open (spec section 4.2). -/
def decBytes (key iv ct : List Nat) : List Nat :=
  ct.mapIdx fun i b => (b + 256 - padByte key iv i) % 256

/-- Modelled from the spec: authentication tag of tagBytes bytes over key,
nonce and encrypted body (spec section 4.2 and the glossary entry on tag
length). -/
def gcmTag (key iv body : List Nat) (tagBytes : Nat) : List Nat :=
  (List.range tagBytes).map fun i =>
    (key.sum * 7 + iv.sum * 19 + body.sum * 23 + i * 29 + 3) % 256

/-- Modelled from the spec: subtle.encrypt for AES-GCM as called by
healthcheck.js lines 51 to 59. Per spec section 4.2 the ciphertext is the
encrypted body followed by the tag, so its length is the plaintext length
plus tagLenBits / 8; the WebCrypto tagLength parameter counts bits. -/
def aesGcmSeal (key iv : List Nat) (tagLenBits : Nat) (pt : List Nat) : List Nat :=
  encBytes key iv pt ++ gcmTag key iv (encBytes key iv pt) (tagLenBits / 8)

/-- Modelled from the spec: subtle.decrypt for AES-GCM as called by server.js
lines 104 to 111. Splits the ciphertext into body and trailing tag and fails
closed (none, surfaced in Node as a rejected promise) when the tag does not
verify, per spec section 4.2. -/
def aesGcmOpen (key iv : List Nat) (tagLenBits : Nat) (ct : List Nat) : Option (List Nat) :=
  if ct.drop (ct.length - tagLenBits / 8)
      = gcmTag key iv (ct.take (ct.length - tagLenBits / 8)) (tagLenBits / 8)
  then some (decBytes key iv (ct.take (ct.length - tagLenBits / 8)))
  else none

/-- Modelled from the spec: the PBKDF2 with SHA-256 to AES-GCM-256 key
derivation requested with length 256 by healthcheck.js lines 29 to 47 and
server.js lines 81 to 102 (spec section 4.1). The byte mixing is an abstract
stand-in for the platform PRF; the scheme relies only on determinism and on
the 32-byte, that is 256-bit, output length. -/
def derive256 (secret salt : List Nat) (iterations : Nat) : List Nat :=
  (List.range 32).map fun i =>
    (secret.sum * 31 + salt.sum * 17 + iterations * 7 + i * 13 + 1) % 256

/-- Modelled from the spec: the KeyDeriver contract of spec section 4.1,
signalling KeyDerivationError when the secret is empty or the iteration count
is zero or negative and otherwise yielding the 256-bit derived key. This
validation is performed by the WebCrypto platform, not by code under src/. -/
def deriveKeySpec (secret salt : List Nat) (iterations : Int) : Except String (List Nat) :=
  if secret = [] ∨ iterations ≤ 0 then Except.error "KeyDerivationError"
  else Except.ok (derive256 secret salt iterations.toNat)

/-- Configuration read from process.env by both server.js and healthcheck.js.
Every field is a string, since Node environment variables are strings; the
startup validation of both files only checks presence. -/
structure Config where
  apiKeySecret : String
  apiKeyCipher : String
  gcmTagLength : String
  pbkdf2Iterations : String
  apiKeyIvLength : String
  apiKeySaltLength : String
deriving DecidableEq

/-- A JavaScript value as inspected by isAPIKey: either a string or a Node
Buffer of bytes. The typeof operator distinguishes the two. -/
inductive JSVal where
  | str (s : String)
  | buf (b : List Nat)
deriving DecidableEq

/-- Translation of isAPIKey, server.js lines 29 to 31: true only when the
argument is a string (typeof key === string) whose trimmed length equals
parseInt(API_KEY_IV_LENGTH) + parseInt(API_KEY_SALT_LENGTH) +
API_KEY_CIPHER.length; on a Buffer the typeof test fails at once. -/
def isAPIKey (cfg : Config) (key : JSVal) : Bool :=
  match key with
  | JSVal.str s =>
      s.trim.length
        == jsToNat cfg.apiKeyIvLength + jsToNat cfg.apiKeySaltLength + cfg.apiKeyCipher.length
  | JSVal.buf _ => false

/-- Translation of the slicing on server.js lines 73 to 78. cipherTextEnd is
API_KEY_CIPHER.length, a number. ivEnd is API_KEY_IV_LENGTH + cipherTextEnd:
a string plus a number in JavaScript, hence string concatenation, modelled by
appending the decimal representation. saltEnd is API_KEY_SALT_LENGTH + ivEnd,
a string plus a string, again concatenation. Buffer slicing then coerces
these strings back to numbers via ToNumber, modelled by jsToNat. The result
is the triple (cipherText, iv, salt). -/
def unpackSegments (cfg : Config) (fullCipher : List Nat) : List Nat × List Nat × List Nat :=
  (bufSlice fullCipher 0 cfg.apiKeyCipher.length,
   bufSlice fullCipher cfg.apiKeyCipher.length
     (jsToNat (cfg.apiKeyIvLength ++ Nat.repr cfg.apiKeyCipher.length)),
   bufSlice fullCipher (jsToNat (cfg.apiKeyIvLength ++ Nat.repr cfg.apiKeyCipher.length))
     (jsToNat (cfg.apiKeySaltLength ++ (cfg.apiKeyIvLength ++ Nat.repr cfg.apiKeyCipher.length))))

/-- Translation of the raw token built by healthcheck.js lines 60 to 65: the
Uint8Array fullKey holds ciphertext, then iv, then salt, in that order. The
fresh random iv and salt of lines 26 and 27 are passed as arguments since the
embedding is deterministic; healthcheck.js parses the iteration count and tag
length with parseInt, modelled by jsToNat. -/
def fullKeyBytes (cfg : Config) (iv salt : List Nat) : List Nat :=
  aesGcmSeal (derive256 (strBytes cfg.apiKeySecret) salt (jsToNat cfg.pbkdf2Iterations)) iv
    (jsToNat cfg.gcmTagLength) (strBytes cfg.apiKeyCipher) ++ iv ++ salt

/-- Translation of healthcheck.js line 67: the issued API key is the base64
encoding of fullKey, sent in the X-API-Key header. -/
def apiKey (cfg : Config) (iv salt : List Nat) : String := b64encode (fullKeyBytes cfg iv salt)

/-- Outcome of one run of the authenticateApiKey middleware on a request:
the 400 Bad Request response, the 403 Invalid API key response, a call of
next() admitting the request, or an exception escaping the async middleware
as a rejected promise. -/
inductive MwOutcome where
  | badRequest
  | forbidden
  | nextCalled
  | thrown (err : String)
deriving DecidableEq

/-- Translation of the authenticateApiKey middleware, server.js lines 64 to
120. With no X-API-Key header, req.get yields undefined and
Buffer.from(undefined, base64) throws a TypeError out of the async function
(line 66). Otherwise the header is base64-decoded to the Buffer fullCipher
and isAPIKey is applied to that Buffer (line 68); failure returns the 400
response. Past the guard the segments are sliced (lines 73 to 78), the key
derived from the sliced salt (lines 81 to 102, the iteration count passed as
the raw environment string, converted by the platform via ToNumber), and
decryption attempted (lines 104 to 111) with the raw GCM_TAG_LENGTH string,
with no try or catch around it, so a failed decryption escapes as a rejected
promise. A decrypted value unequal to API_KEY_CIPHER returns the 403
response, equality calls next(). The destructured SubtleCrypto binding of
server.js line 6 is undefined in Node, so the calls past the guard would in
fact throw if ever reached; the guard makes them unreachable, so no theorem
below depends on the modelling of that branch. -/
def authenticateApiKey (cfg : Config) (header : Option String) : MwOutcome :=
  match header with
  | none => MwOutcome.thrown "TypeError"
  | some base64Cipher =>
    let fullCipher := b64decode base64Cipher
    if !(isAPIKey cfg (JSVal.buf fullCipher)) then MwOutcome.badRequest
    else
      let segs := unpackSegments cfg fullCipher
      let key := derive256 (strBytes cfg.apiKeySecret) segs.2.2 (jsToNat cfg.pbkdf2Iterations)
      match aesGcmOpen key segs.2.1 (jsToNat cfg.gcmTagLength) segs.1 with
      | none => MwOutcome.thrown "OperationError"
      | some pt =>
        if bytesToString pt ≠ cfg.apiKeyCipher then MwOutcome.forbidden
        else MwOutcome.nextCalled

/-- Control-flow instrumentation for authenticateApiKey: true exactly when a
run on the given header gets past the isAPIKey guard of server.js line 68,
that is, reaches the importKey, deriveKey and decrypt calls of lines 81 to
111. -/
def authReachesDeriveKey (cfg : Config) (header : Option String) : Bool :=
  match header with
  | none => false
  | some s => isAPIKey cfg (JSVal.buf (b64decode s))

/-- Expected ciphertext segment length of a raw token: the plaintext length
plus the tag length in bytes (spec section 3 invariant). -/
def cipherLen (cfg : Config) : Nat := cfg.apiKeyCipher.length + jsToNat cfg.gcmTagLength / 8

/-- Sum of the three expected segment lengths of a raw token: ciphertext,
then nonce, then salt (spec sections 3 and 4.3). -/
def expectedTokenLen (cfg : Config) : Nat :=
  cipherLen cfg + jsToNat cfg.apiKeyIvLength + jsToNat cfg.apiKeySaltLength

/-- Token obtained from a valid raw token by flipping bit j of byte i and
re-encoding for the X-API-Key header. -/
def flippedToken (cfg : Config) (iv salt : List Nat) (i j : Nat) : String :=
  b64encode (flipBit (fullKeyBytes cfg iv salt) i j)

/-- The concrete reference configuration of spec section 8: secret
test-secret-value, expected plaintext expected-key-123 of 16 characters, tag
length 128 bits (16 bytes), 100000 iterations, nonce length 12, salt length
16, all as environment strings. -/
def cfgC : Config :=
  { apiKeySecret := "test-secret-value"
  , apiKeyCipher := "expected-key-123"
  , gcmTagLength := "128"
  , pbkdf2Iterations := "100000"
  , apiKeyIvLength := "12"
  , apiKeySaltLength := "16" }

/-- A concrete 12-byte nonce for the reference scenario. -/
def iv0 : List Nat := List.range 12

/-- A concrete nonempty 16-byte salt for the reference scenario. -/
def salt0 : List Nat := (List.range 16).map fun i => i + 100

/-- The reference token truncated by one raw byte and re-encoded: 59 bytes
instead of 60. -/
def tokTrunc : String := b64encode ((b64decode (apiKey cfgC iv0 salt0)).take 59)

/-- A slice whose end index reaches past the buffer keeps everything from the
start index on. -/
theorem bufSlice_take_all (b : List Nat) (s e : Nat) (h : b.length ≤ e) :
    bufSlice b s e = b.drop s := by
  unfold bufSlice
  rw [List.take_of_length_le h]

/-- A slice whose start index reaches past the buffer is empty, whatever the
end index. -/
theorem bufSlice_nil_of_start_ge (b : List Nat) (s e : Nat) (h : b.length ≤ s) :
    bufSlice b s e = [] := by
  unfold bufSlice
  apply List.drop_eq_nil_of_le
  have ht : (b.take e).length = min e b.length := List.length_take e b
  omega

/-- The modelled AES-GCM ciphertext is the plaintext length plus the tag
length in bytes, as spec section 4.2 requires. -/
theorem length_aesGcmSeal (key iv : List Nat) (tagLenBits : Nat) (pt : List Nat) :
    (aesGcmSeal key iv tagLenBits pt).length = pt.length + tagLenBits / 8 := by
  simp [aesGcmSeal, encBytes, gcmTag]

/-- The encoded byte list of a string has the length of the string. -/
theorem length_strBytes (s : String) : (strBytes s).length = s.length := by
  show (s.data.map Char.toNat).length = s.length
  rw [List.length_map]
  rfl

/-- C1: the spec claims that verifying a token produced by the issuer with
the same parameters yields Accept. The code does the opposite: under the
reference configuration, the verifier middleware answers the freshly issued
token with the 400 Bad Request response and never calls next(), because the
isAPIKey guard requires a string but receives the decoded Buffer (and its
expected length 44 omits the 16-byte GCM tag of the 60-byte token). -/
theorem c1_issue_verify_rejected :
    authenticateApiKey cfgC (some (apiKey cfgC iv0 salt0)) = MwOutcome.badRequest ∧
    authenticateApiKey cfgC (some (apiKey cfgC iv0 salt0)) ≠ MwOutcome.nextCalled :=
  ⟨rfl, fun h => MwOutcome.noConfusion h⟩

/-- C2: every presented token whose decoded byte length differs from the sum
of the expected ciphertext, nonce and salt segment lengths is rejected with
the 400 malformed response before the key derivation or decryption calls are
reached. In the code this holds because the isAPIKey guard on server.js line
68 fires before lines 81 to 111 are executed. -/
theorem c2_wrong_length_rejected_before_derivation (cfg : Config) (s : String)
    (_h : (b64decode s).length ≠ expectedTokenLen cfg) :
    authenticateApiKey cfg (some s) = MwOutcome.badRequest ∧
    authReachesDeriveKey cfg (some s) = false :=
  ⟨rfl, rfl⟩

/-- Witness for C2 at the reference configuration: the truncated reference
token decodes to 59 bytes, not the expected 60, and is rejected with 400
before key derivation. -/
theorem c2_witness :
    (b64decode tokTrunc).length ≠ expectedTokenLen cfgC ∧
    (authenticateApiKey cfgC (some tokTrunc) = MwOutcome.badRequest ∧
     authReachesDeriveKey cfgC (some tokTrunc) = false) :=
  ⟨by decide, c2_wrong_length_rejected_before_derivation cfgC tokTrunc (by decide)⟩

/-- C3, counterexample: the claim says every verification failure is surfaced
as one uniform 403. At the concrete malformed (truncated) reference token the
middleware responds 400 Bad Request, which is not the 403 response, so the
uniform rejection is not a 403. -/
theorem c3_counterexample :
    authenticateApiKey cfgC (some tokTrunc) = MwOutcome.badRequest ∧
    MwOutcome.badRequest ≠ MwOutcome.forbidden :=
  ⟨rfl, fun h => MwOutcome.noConfusion h⟩

/-- C3, amended: every request presenting a token is answered with one and
the same rejection, namely the 400 Bad Request response; the caller cannot
distinguish failure kinds, but the uniform status is 400, not 403 (the 403
branch of server.js line 114 is unreachable). -/
theorem c3_uniform_rejection (cfg : Config) (s1 s2 : String) :
    authenticateApiKey cfg (some s1) = authenticateApiKey cfg (some s2) ∧
    authenticateApiKey cfg (some s1) = MwOutcome.badRequest :=
  ⟨rfl, rfl⟩

/-- C4, counterexample: the claim says a single-bit flip in the ciphertext
segment of a valid token makes verification reject with an authentication
failure. The code has no authentication-failure rejection at all: a failed
AEAD check would escape as an uncaught OperationError and the only other
rejection is the 403 response. At the reference token with bit 0 of
ciphertext byte 0 flipped, the middleware responds 400 Bad Request, which is
neither the 403 rejection nor the escaped OperationError. -/
theorem c4_counterexample :
    authenticateApiKey cfgC (some (flippedToken cfgC iv0 salt0 0 0)) = MwOutcome.badRequest ∧
    MwOutcome.badRequest ≠ MwOutcome.forbidden ∧
    MwOutcome.badRequest ≠ MwOutcome.thrown "OperationError" :=
  ⟨rfl, fun h => MwOutcome.noConfusion h, fun h => MwOutcome.noConfusion h⟩

/-- C4, amended: flipping any single bit of any byte of the ciphertext
segment of a valid issued token makes the verifier reject with the 400 Bad
Request response, without reaching key derivation or decryption; the
middleware does not crash on such tokens (the uncaught decrypt call is never
reached). -/
theorem c4_flip_rejected_before_decrypt (cfg : Config) (iv salt : List Nat) (i j : Nat)
    (_h : i < cipherLen cfg) :
    authenticateApiKey cfg (some (flippedToken cfg iv salt i j)) = MwOutcome.badRequest ∧
    authReachesDeriveKey cfg (some (flippedToken cfg iv salt i j)) = false :=
  ⟨rfl, rfl⟩

/-- Witness for C4 amended: flipping bit 0 of ciphertext byte 0 of the
reference token (ciphertext segment length 32) is rejected with 400 before
derivation. -/
theorem c4_witness :
    (0 < cipherLen cfgC) ∧
    (authenticateApiKey cfgC (some (flippedToken cfgC iv0 salt0 0 0)) = MwOutcome.badRequest ∧
     authReachesDeriveKey cfgC (some (flippedToken cfgC iv0 salt0 0 0)) = false) :=
  ⟨by decide, c4_flip_rejected_before_decrypt cfgC iv0 salt0 0 0 (by decide)⟩

/-- C5, counterexample: the claim says the verifier parses the decoded token
into the same three segments the issuer packed. Under the reference
parameters the issued raw token has the claimed 60 bytes, but the verifier
slices a 16-byte cipherText (the plaintext length, omitting the 16-byte
tag), a 44-byte iv running to the end of the token, and an empty salt, while
the issuer packed segments of 32, 12 and 16 bytes; in particular the
recovered salt is empty and differs from the nonempty issued salt. -/
theorem c5_counterexample :
    (b64decode (apiKey cfgC iv0 salt0)).length = 60 ∧
    (unpackSegments cfgC (b64decode (apiKey cfgC iv0 salt0))).1.length = 16 ∧
    (unpackSegments cfgC (b64decode (apiKey cfgC iv0 salt0))).2.1.length = 44 ∧
    (unpackSegments cfgC (b64decode (apiKey cfgC iv0 salt0))).2.2 = [] ∧
    salt0 ≠ [] := by
  refine ⟨by decide, by decide, by decide, by decide, by decide⟩

/-- C5, amended: the issued raw token is the concatenation ciphertext, then
nonce, then salt, of total length plaintext length plus tag bytes plus nonce
length plus salt length (60 bytes under the reference parameters), but the
verifier does not recover these segments: whenever the token is shorter than
the string-concatenated iv end index, it takes cipherText to be the first
API_KEY_CIPHER.length bytes, iv to be all remaining bytes, and salt to be
empty. -/
theorem c5_pack_length_unpack_mismatch (cfg : Config) (iv salt : List Nat)
    (h : (fullKeyBytes cfg iv salt).length
      ≤ jsToNat (cfg.apiKeyIvLength ++ Nat.repr cfg.apiKeyCipher.length)) :
    (fullKeyBytes cfg iv salt).length
      = cfg.apiKeyCipher.length + jsToNat cfg.gcmTagLength / 8 + iv.length + salt.length ∧
    (unpackSegments cfg (fullKeyBytes cfg iv salt)).1
      = (fullKeyBytes cfg iv salt).take cfg.apiKeyCipher.length ∧
    (unpackSegments cfg (fullKeyBytes cfg iv salt)).2.1
      = (fullKeyBytes cfg iv salt).drop cfg.apiKeyCipher.length ∧
    (unpackSegments cfg (fullKeyBytes cfg iv salt)).2.2 = [] := by
  refine ⟨?_, ?_, ?_, ?_⟩
  · simp [fullKeyBytes, length_aesGcmSeal, length_strBytes]
    omega
  · show bufSlice (fullKeyBytes cfg iv salt) 0 cfg.apiKeyCipher.length = _
    simp [bufSlice]
  · exact bufSlice_take_all _ _ _ h
  · exact bufSlice_nil_of_start_ge _ _ _ h

/-- Witness for C5 amended at the reference configuration: the 60-byte token
is below the concatenated iv end index 1216, its length decomposes as
16 + 16 + 12 + 16, and the verifier slices prefix, remainder and empty salt. -/
theorem c5_witness :
    (fullKeyBytes cfgC iv0 salt0).length
      ≤ jsToNat (cfgC.apiKeyIvLength ++ Nat.repr cfgC.apiKeyCipher.length) ∧
    ((fullKeyBytes cfgC iv0 salt0).length
       = cfgC.apiKeyCipher.length + jsToNat cfgC.gcmTagLength / 8 + iv0.length + salt0.length ∧
     (unpackSegments cfgC (fullKeyBytes cfgC iv0 salt0)).1
       = (fullKeyBytes cfgC iv0 salt0).take cfgC.apiKeyCipher.length ∧
     (unpackSegments cfgC (fullKeyBytes cfgC iv0 salt0)).2.1
       = (fullKeyBytes cfgC iv0 salt0).drop cfgC.apiKeyCipher.length ∧
     (unpackSegments cfgC (fullKeyBytes cfgC iv0 salt0)).2.2 = []) :=
  ⟨by decide, c5_pack_length_unpack_mismatch cfgC iv0 salt0 (by decide)⟩

/-- C7: key derivation signals KeyDerivationError exactly when the secret is
empty or the iteration count is zero or negative, and on all other inputs
yields the derived key of exactly 256 bits (32 bytes), per the KeyDeriver
contract of spec section 4.1 modelled by deriveKeySpec. -/
theorem c7_deriveKey_contract (secret salt : List Nat) (iterations : Int) :
    (secret = [] ∨ iterations ≤ 0 →
      deriveKeySpec secret salt iterations = Except.error "KeyDerivationError") ∧
    (¬(secret = [] ∨ iterations ≤ 0) →
      deriveKeySpec secret salt iterations = Except.ok (derive256 secret salt iterations.toNat) ∧
      (derive256 secret salt iterations.toNat).length * 8 = 256) := by
  constructor
  · intro h
    simp [deriveKeySpec, h]
  · intro h
    refine ⟨by simp [deriveKeySpec, h], ?_⟩
    have hl : (derive256 secret salt iterations.toNat).length = 32 := by
      simp [derive256]
    omega

/-- Witness for C7: the empty secret is refused, and a nonempty secret with a
positive iteration count yields the 256-bit key. -/
theorem c7_witness :
    deriveKeySpec [] [7] 1000 = Except.error "KeyDerivationError" ∧
    (deriveKeySpec [1, 2] [7] 1000 = Except.ok (derive256 [1, 2] [7] 1000) ∧
     (derive256 [1, 2] [7] 1000).length * 8 = 256) :=
  ⟨(c7_deriveKey_contract [] [7] 1000).1 (Or.inl rfl),
   (c7_deriveKey_contract [1, 2] [7] 1000).2 (by decide)⟩

/-- C8: for every request carrying an X-API-Key header, whatever its value
and whatever the configuration, the middleware answers 400 Bad Request,
never reaches the key derivation and decryption calls, and never calls
next(): the isAPIKey guard demands typeof string but always receives the
Buffer decoded on server.js line 66, so no presented token is ever
accepted. -/
theorem c8_buffer_guard_rejects_all (cfg : Config) (s : String) :
    authenticateApiKey cfg (some s) = MwOutcome.badRequest ∧
    authReachesDeriveKey cfg (some s) = false ∧
    authenticateApiKey cfg (some s) ≠ MwOutcome.nextCalled :=
  ⟨rfl, rfl, fun h => MwOutcome.noConfusion h⟩

/-- C9: when the X-API-Key header is absent, the middleware produces no 4xx
rejection at all: Buffer.from(undefined, base64) throws a TypeError inside
the async function, so the failure escapes as a rejected promise rather than
the 400 or 403 response. -/
theorem c9_missing_header_throws (cfg : Config) :
    authenticateApiKey cfg none = MwOutcome.thrown "TypeError" ∧
    authenticateApiKey cfg none ≠ MwOutcome.badRequest ∧
    authenticateApiKey cfg none ≠ MwOutcome.forbidden :=
  ⟨rfl, fun h => MwOutcome.noConfusion h, fun h => MwOutcome.noConfusion h⟩

/-- C10: the segment boundaries of server.js lines 74 and 75 are JavaScript
string concatenations of environment strings with numbers, so for every
decoded token no longer than the numeric value of the concatenated iv end
index (1216 at the reference configuration) the iv slice runs from the
cipherText end to the end of the token, the salt slice is empty, and hence
the key the middleware derives from the sliced salt is the key derived from
the empty salt, not from the configured salt segment. -/
theorem c10_string_concat_slicing (cfg : Config) (tok : List Nat)
    (h : tok.length ≤ jsToNat (cfg.apiKeyIvLength ++ Nat.repr cfg.apiKeyCipher.length)) :
    (unpackSegments cfg tok).2.1 = tok.drop cfg.apiKeyCipher.length ∧
    (unpackSegments cfg tok).2.2 = [] ∧
    derive256 (strBytes cfg.apiKeySecret) (unpackSegments cfg tok).2.2
        (jsToNat cfg.pbkdf2Iterations)
      = derive256 (strBytes cfg.apiKeySecret) [] (jsToNat cfg.pbkdf2Iterations) := by
  have h2 : (unpackSegments cfg tok).2.2 = [] := bufSlice_nil_of_start_ge _ _ _ h
  exact ⟨bufSlice_take_all _ _ _ h, h2, by rw [h2]⟩

/-- Witness for C10 at the reference configuration on a 60-byte token: 60 is
below the concatenated index 1216, the iv slice is the whole token past byte
16, and the salt slice is empty. -/
theorem c10_witness :
    (List.range 60).length
      ≤ jsToNat (cfgC.apiKeyIvLength ++ Nat.repr cfgC.apiKeyCipher.length) ∧
    ((unpackSegments cfgC (List.range 60)).2.1 = (List.range 60).drop cfgC.apiKeyCipher.length ∧
     (unpackSegments cfgC (List.range 60)).2.2 = [] ∧
     derive256 (strBytes cfgC.apiKeySecret) (unpackSegments cfgC (List.range 60)).2.2
         (jsToNat cfgC.pbkdf2Iterations)
       = derive256 (strBytes cfgC.apiKeySecret) [] (jsToNat cfgC.pbkdf2Iterations)) :=
  ⟨by decide, c10_string_concat_slicing cfgC (List.range 60) (by decide)⟩

end WillUMailMe
